import Mathlib

/-!
Verification development for the `rag_assistant` repository (src/main.py,
src/config.py): a Telegram RAG chat assistant.  Python string values are
modelled as Lean `String`s; Python string operations used by the program
(`str.lower`, `str.split`, `str.strip`, `str.isalnum`, `in`) are modelled
character-wise over `String.data` so that every definition is executable and
kernel-reducible.  Exceptions are modelled with `Except`; mutable state is
passed explicitly.
-/

namespace RagAssistant

/-- Model of Python `str.lower` at the character level, for the character
ranges this program manipulates: ASCII letters, and the Unicode Cyrillic
block U+0400–U+042F (uppercase Cyrillic rows; Python maps U+0400–U+040F to
U+0450–U+045F and U+0410–U+042F to U+0430–U+044F).  All other characters are
fixed points, matching Python on every character appearing in the program's
data (config synonym table, Russian-letter probe string, user queries built
from these ranges). -/
def pyLowerChar (c : Char) : Char :=
  if 0x41 ≤ c.toNat ∧ c.toNat ≤ 0x5A then Char.ofNat (c.toNat + 32)
  else if 0x400 ≤ c.toNat ∧ c.toNat ≤ 0x40F then Char.ofNat (c.toNat + 0x50)
  else if 0x410 ≤ c.toNat ∧ c.toNat ≤ 0x42F then Char.ofNat (c.toNat + 0x20)
  else c

/-- Model of Python `str.lower` on whole strings. -/
def pyLower (s : String) : String :=
  String.mk (s.data.map pyLowerChar)

/-- Model of Python `str.isalnum` for the characters this program handles:
ASCII alphanumerics plus the Cyrillic block U+0400–U+04FF (all of whose
assigned code points are letters). -/
def pyIsAlnum (c : Char) : Bool :=
  c.isAlphanum || (0x400 ≤ c.toNat && c.toNat ≤ 0x4FF)

/-- Auxiliary scanner for Python `str.split()` with no separator argument:
splits on runs of whitespace and discards empty pieces.  `cur` is the
reversed current word. -/
def pySplitGo : List Char → List Char → List String
  | [], cur => if cur.isEmpty then [] else [String.mk cur.reverse]
  | c :: rest, cur =>
    if c.isWhitespace then
      if cur.isEmpty then pySplitGo rest []
      else String.mk cur.reverse :: pySplitGo rest []
    else pySplitGo rest (c :: cur)

/-- Model of Python `str.split()` (no separator). -/
def pySplit (s : String) : List String :=
  pySplitGo s.data []

/-- Auxiliary scanner for Python `str.split(sep)` with a one-character
separator: keeps empty pieces, `''.split(sep) == ['']`. -/
def pySplitOnGo (sep : Char) : List Char → List Char → List String
  | [], cur => [String.mk cur.reverse]
  | c :: rest, cur =>
    if c = sep then String.mk cur.reverse :: pySplitOnGo sep rest []
    else pySplitOnGo sep rest (c :: cur)

/-- Model of Python `str.split(sep)` for a single-character separator, as
used by `query.data.split('_')` in the feedback callback. -/
def pySplitOn (sep : Char) (s : String) : List String :=
  pySplitOnGo sep s.data []

/-- Model of Python `str.strip()` (no argument): removes leading and trailing
whitespace. -/
def pyStrip (s : String) : String :=
  String.mk (((s.data.dropWhile Char.isWhitespace).reverse.dropWhile
      Char.isWhitespace).reverse)

/-! ## Configuration constants (src/config.py) -/

/-- `config.SYNONYM_MAP`, in dictionary insertion order (Python dicts
preserve insertion order). -/
def SYNONYM_MAP : List (String × List String) :=
  [ ("course", ["program", "study plan", "module"]),
    ("courses", ["programs", "study plans", "modules"]),
    ("deadline", ["due date", "submission date"]),
    ("application", ["admission", "enrollment"]),
    ("GSOM", ["Graduate School of Management", "GSOM SPbU", "ВШМ"]),
    ("SPbU", ["Saint Petersburg State University", "СПбГУ"]),
    ("MiBA", ["Master in Business Analytics and Big Data", "Миба"]),
    ("ML", ["Machine Learning", "машинное обучение"]),
    ("AI", ["Artificial Intelligence", "искусственный интеллект"]),
    ("МЛ", ["Machine Learning", "машинное обучение"]),
    ("ИИ", ["Artificial Intelligence", "искусственный интеллект"]),
    ("exam", ["examination", "test", "assessment", "экзамен", "тест"]),
    ("schedule", ["timetable", "academic calendar", "расписание", "календарь"]),
    ("расписание", ["timetable", "academic calendar", "расписание", "календарь"]),
    ("обмен", ["включенное обучение", "included learning", "программа обмена",
               "outgoing", "exchange"]),
    ("exchange program", ["included learning", "включенное обучение"]),
    ("practice", ["practical training", "internship"]),
    ("практика", ["practical training", "internship"]) ]

/-- The probe string of main.py line 500: the 33 lowercase letters of the
Russian alphabet. -/
def RUSSIAN_LETTERS : String := "абвгдеёжзийклмнопрстуфхцчшщъыьэюя"

/-! ## Query preprocessing (src/main.py, `preprocess_query_for_retrieval`,
lines 490–542) -/

/-- Line 500: `is_russian = any(c in "абв…" for c in corrected_query.lower())`. -/
def is_russian (q : String) : Bool :=
  (pyLower q).data.any (fun c => RUSSIAN_LETTERS.data.contains c)

/-- A character of the main Unicode Cyrillic blocks (U+0400–U+052F: Cyrillic
and Cyrillic Supplement).  Used to state the spec's language-detection
claims. -/
def isCyrillicChar (c : Char) : Bool :=
  0x400 ≤ c.toNat && c.toNat ≤ 0x52F

/-- Line 522: `cleaned_token_lower = ''.join(filter(str.isalnum, token)).lower()`. -/
def cleanToken (t : String) : String :=
  pyLower (String.mk (t.data.filter pyIsAlnum))

/-- Line 519: `words_in_primary = primary_lang_query_part.lower().split()`. -/
def wordsInPrimary (primary : String) : List String :=
  pySplit (pyLower primary)

/-- Line 527's guard: the synonym is appended only when its lowercase form is
neither a whitespace token of the primary query nor the lowercase form of an
already-collected synonym. -/
def synAddCond (words : List String) (acc : List String) (syn : String) : Bool :=
  !(words.contains (pyLower syn)) && !((acc.map pyLower).contains (pyLower syn))

/-- Lines 525–528: the inner loop over one map entry's synonym list.  The
source collects synonyms in a Python `set`; this model records them in the
order they are first inserted, one admissible iteration order of that set. -/
def appendSyns (words : List String) (acc : List String) (syns : List String) :
    List String :=
  syns.foldl (fun a syn => if synAddCond words a syn then a ++ [syn] else a) acc

/-- Lines 523–528: the loop over `config.SYNONYM_MAP.items()` for one token,
generalized over the entry list to support induction. -/
def processTokenAux (words : List String) (cleaned : String)
    (entries : List (String × List String)) (acc : List String) : List String :=
  entries.foldl
    (fun a kv => if pyLower kv.1 == cleaned then appendSyns words a kv.2 else a)
    acc

/-- Lines 521–528: handling of one whitespace token of the primary query. -/
def processToken (words : List String) (acc : List String) (token : String) :
    List String :=
  processTokenAux words (cleanToken token) SYNONYM_MAP acc

/-- The token loop of lines 521–528, generalized over the token list. -/
def appendedSynonymsAux (words : List String) (tokens : List String)
    (acc : List String) : List String :=
  tokens.foldl (processToken words) acc

/-- Lines 516–528: the synonyms appended for a given primary-language query
(the contents of `appended_synonyms`, in insertion order). -/
def appendedSynonyms (primary : String) : List String :=
  appendedSynonymsAux (wordsInPrimary primary) (pySplit primary) []

/-- Lines 530–532 restricted to the primary part: the expanded primary query
`f"{primary_lang_query_part} {' '.join(list(appended_synonyms))}"` when any
synonym was appended, the unchanged primary part otherwise. -/
def expandQuery (primary : String) : String :=
  let syns := appendedSynonyms primary
  if syns.isEmpty then primary
  else primary ++ " " ++ String.intercalate " " syns

/-- Lines 512–538: the composed query before the final whitespace fallback of
line 540.  `translated` is the text returned by the translation LLM call
(`ask_llm_for_metadata` returns a stripped completion, or the empty string on
any request/parse failure); Python's `if translated_text` truthiness test is
nonemptiness.  The `config.SYNONYM_MAP` guard of line 516 is always true
(the table is a nonempty constant), and lines 534–537 build the same string
in both branches of `is_russian`. -/
def composedQuery (userQuery translated : String) : String :=
  let corrected := userQuery
  let afterTranslation :=
    if translated = "" then corrected else corrected ++ ", " ++ translated
  let syns := appendedSynonyms corrected
  if syns.isEmpty then afterTranslation
  else
    let expanded := corrected ++ " " ++ String.intercalate " " syns
    if translated = "" then expanded else expanded ++ ", " ++ translated

/-- Lines 490–542, with the LLM assumed initialized (otherwise line 493
returns the query unchanged) and the translation call's result passed in as
`translated`.  Line 540 falls back to `user_query` when the composed string
strips to empty, and line 542 returns the stripped final string. -/
def preprocess_query_for_retrieval (userQuery translated : String) : String :=
  let finalQuery := composedQuery userQuery translated
  let finalQuery := if pyStrip finalQuery = "" then userQuery else finalQuery
  pyStrip finalQuery

/-! ## Hybrid retriever (src/main.py, `OpenSearchHybridSearchRetriever`,
lines 372–428) -/

/-- A LangChain `Document`: page content plus string metadata. -/
structure Document where
  page_content : String
  metadata : List (String × String)
deriving DecidableEq

/-- The retriever's `search_kwargs` (lines 375–379); the two float weights
are modelled as rationals. -/
structure SearchKwargs where
  fusion_algorithm : String
  vector_search_weight : Rat
  keyword_search_weight : Rat
deriving DecidableEq

/-- The default `search_kwargs` of lines 375–379. -/
def defaultSearchKwargs : SearchKwargs :=
  { fusion_algorithm := "rrf"
    vector_search_weight := 1 / 2
    keyword_search_weight := 1 / 2 }

/-- The `OpenSearchVectorSearch` store as the retriever sees it.  `σ` is the
relevance-score type (a float in the source, discarded by the retriever).
`similarity_search_with_score` takes the value of the store's
`is_hybrid_search` attribute in effect at call time, and either returns
scored documents or raises (`Except.error` carries the exception text).
LangChain's base `asimilarity_search_with_score` runs the same synchronous
search on an executor, so one function models both the sync method and the
async method; `has_async_search` models the
`hasattr(vectorstore, "asimilarity_search_with_score")` test of line 408. -/
structure VectorStore (σ : Type) where
  is_hybrid_search : Bool
  similarity_search_with_score :
    Bool → String → Nat → SearchKwargs → Except String (List (Document × σ))
  has_async_search : Bool

/-- Lines 386–388 / 404–406: force `is_hybrid_search := True` on the store
when it is not already set. -/
def forceHybrid {σ : Type} (vs : VectorStore σ) : VectorStore σ :=
  if vs.is_hybrid_search then vs else { vs with is_hybrid_search := true }

/-- Lines 381–398, `_get_relevant_documents`: force the hybrid flag, search,
strip scores; any raised exception is logged and swallowed, returning `[]`.
The returned pair carries the (possibly mutated) store. -/
def getRelevantDocuments {σ : Type} (vs : VectorStore σ) (k : Nat)
    (kwargs : SearchKwargs) (query : String) : List Document × VectorStore σ :=
  let vs1 := forceHybrid vs
  match vs1.similarity_search_with_score vs1.is_hybrid_search query k kwargs with
  | Except.ok results => (results.map Prod.fst, vs1)
  | Except.error _ => ([], vs1)

/-- Lines 400–428, `_aget_relevant_documents`: same logic, with the
`hasattr` branch of line 408 choosing between the native async method and
the sync method run in an executor — both modelled by the store's single
search function. -/
def agetRelevantDocuments {σ : Type} (vs : VectorStore σ) (k : Nat)
    (kwargs : SearchKwargs) (query : String) : List Document × VectorStore σ :=
  let vs1 := forceHybrid vs
  if vs1.has_async_search then
    match vs1.similarity_search_with_score vs1.is_hybrid_search query k kwargs with
    | Except.ok results => (results.map Prod.fst, vs1)
    | Except.error _ => ([], vs1)
  else
    match vs1.similarity_search_with_score vs1.is_hybrid_search query k kwargs with
    | Except.ok results => (results.map Prod.fst, vs1)
    | Except.error _ => ([], vs1)

/-! ## Chat history update (src/main.py, `handle_text_message`,
lines 599–600) -/

/-- A LangChain chat message (`HumanMessage` / `AIMessage`). -/
inductive ChatMessage where
  | human (content : String)
  | ai (content : String)
deriving DecidableEq

/-- Python list slicing `l[-n:]`: the last `n` elements (all of them when the
list is shorter). -/
def pyTakeLast {α : Type} (n : Nat) (l : List α) : List α :=
  l.drop (l.length - n)

/-- Lines 599–600: extend the chat history with the new question/answer pair
and keep only the last 20 messages (`current_chat_history[-20:]`). -/
def updateChatHistory (history : List ChatMessage) (question answer : String) :
    List ChatMessage :=
  pyTakeLast 20 (history ++ [ChatMessage.human question, ChatMessage.ai answer])

/-! ## Feedback callback (src/main.py, `feedback_callback`, lines 697–736) -/

/-- An ASCII apostrophe, as a string. -/
def apos : String := String.mk [Char.ofNat 39]

/-- One entry of `context.chat_data['interactions']` (lines 607–612). -/
structure InteractionRecord where
  question : String
  preprocessed_question : String
  answer : String
  contexts_docs : List Document
  answer_message_id : Nat
  feedback : Option String
  timestamp : String
deriving DecidableEq

/-- One entry of the global `ragas_data_pool`, restricted to the fields the
feedback callback reads or writes (`interaction_id`, `feedback`); the other
logged fields are never touched after creation. -/
structure RagasRecord where
  interaction_id : String
  feedback : Option String
deriving DecidableEq

/-- The mutable chat state that `feedback_callback` can reach: the per-chat
interaction table, the per-chat history from `user_chat_histories` (which the
function never references), and the global RAGAS pool. -/
structure BotChatState where
  interactions : List (String × InteractionRecord)
  chat_history : List ChatMessage
  ragas_pool : List RagasRecord
deriving DecidableEq

/-- Line 709: store the sentiment on the matching interaction record. -/
def setFeedback (interactions : List (String × InteractionRecord))
    (interactionId sentiment : String) : List (String × InteractionRecord) :=
  interactions.map fun kv =>
    if kv.1 = interactionId then (kv.1, { kv.2 with feedback := some sentiment })
    else kv

/-- Lines 712–715: update the first matching RAGAS pool item (the loop
breaks after the first match). -/
def ragasSetFeedback : List RagasRecord → String → String → List RagasRecord
  | [], _, _ => []
  | r :: rs, interactionId, sentiment =>
    if r.interaction_id = interactionId then
      { r with feedback := some sentiment } :: rs
    else r :: ragasSetFeedback rs interactionId sentiment

/-- Lines 697–718 of `feedback_callback`, up to the keyboard re-rendering:
split the callback payload on `'_'`; a payload that does not split into
exactly three parts raises `ValueError` in the unpacking, which is caught and
answered with a fixed error message, leaving all state untouched.  Otherwise
record the sentiment when the interaction id is known and build the
confirmation text.  The result is the user-visible reply text paired with the
updated state. -/
def feedback_callback (data : String) (st : BotChatState) :
    String × BotChatState :=
  match pySplitOn '_' data with
  | [_, sentiment, interactionId] =>
    let recorded := (st.interactions.map Prod.fst).contains interactionId
    let st1 :=
      if recorded then
        { st with
          interactions := setFeedback st.interactions interactionId sentiment
          ragas_pool := ragasSetFeedback st.ragas_pool interactionId sentiment }
      else st
    let confirm :=
      if recorded then
        if sentiment = "positive" then "Thanks for your feedback! 👍"
        else "Thanks for your feedback. We" ++ apos ++
          "ll use this to improve. 👎"
      else "Sorry, couldn" ++ apos ++ "t record feedback for this message."
    (confirm, st1)
  | _ => ("Error: Could not process feedback.", st)

/-! ## Credential loading (src/main.py, `load_json_file`, lines 61–72) -/

/-- A JSON value, as produced by Python's `json.load`. -/
inductive Json where
  | null
  | bool (b : Bool)
  | num (n : Int)
  | str (s : String)
  | arr (xs : List Json)
  | obj (kvs : List (String × Json))

/-- Strict UTF-8 decoding of a byte list (Python's `utf-8` codec in its
default `strict` error mode): rejects stray continuation bytes, overlong
encodings, surrogates, and code points above U+10FFFF. -/
def utf8DecodeAux : List Nat → Option (List Char)
  | [] => some []
  | b :: rest =>
    if b < 0x80 then
      (utf8DecodeAux rest).map (fun cs => Char.ofNat b :: cs)
    else if b < 0xC0 then none
    else if b < 0xE0 then
      match rest with
      | b1 :: rest1 =>
        if 0x80 ≤ b1 ∧ b1 < 0xC0 then
          let cp := (b - 0xC0) * 0x40 + (b1 - 0x80)
          if 0x80 ≤ cp then
            (utf8DecodeAux rest1).map (fun cs => Char.ofNat cp :: cs)
          else none
        else none
      | _ => none
    else if b < 0xF0 then
      match rest with
      | b1 :: b2 :: rest2 =>
        if (0x80 ≤ b1 ∧ b1 < 0xC0) ∧ (0x80 ≤ b2 ∧ b2 < 0xC0) then
          let cp := (b - 0xE0) * 0x1000 + (b1 - 0x80) * 0x40 + (b2 - 0x80)
          if 0x800 ≤ cp ∧ ¬(0xD800 ≤ cp ∧ cp ≤ 0xDFFF) then
            (utf8DecodeAux rest2).map (fun cs => Char.ofNat cp :: cs)
          else none
        else none
      | _ => none
    else if b < 0xF8 then
      match rest with
      | b1 :: b2 :: b3 :: rest3 =>
        if (0x80 ≤ b1 ∧ b1 < 0xC0) ∧ (0x80 ≤ b2 ∧ b2 < 0xC0) ∧
            (0x80 ≤ b3 ∧ b3 < 0xC0) then
          let cp := (b - 0xF0) * 0x40000 + (b1 - 0x80) * 0x1000 +
            (b2 - 0x80) * 0x40 + (b3 - 0x80)
          if 0x10000 ≤ cp ∧ cp ≤ 0x10FFFF then
            (utf8DecodeAux rest3).map (fun cs => Char.ofNat cp :: cs)
          else none
        else none
      | _ => none
    else none

/-- Decode a file's bytes as UTF-8 text, or fail as Python's strict decoder
does (raising `UnicodeDecodeError`). -/
def utf8Decode (bytes : List Nat) : Option String :=
  (utf8DecodeAux bytes).map String.mk

/-- The state of the file named by `load_json_file`'s argument: absent, or
present with raw bytes. -/
inductive FileContent where
  | missing
  | bytes (bs : List Nat)
deriving DecidableEq

/-- The Python exceptions `load_json_file` can let escape. -/
inductive PyFileError where
  | unicodeDecodeError
deriving DecidableEq

/-- Lines 61–72, `load_json_file`, parameterized by the behaviour of the
external `json.loads` parser on decoded text (`jsonLoads text = none` models
`json.JSONDecodeError`).  A missing file (`FileNotFoundError`) and a JSON
parse failure are caught and yield `{}`; a file whose bytes are not valid
UTF-8 makes `f.read()` inside `json.load` raise `UnicodeDecodeError`, which
none of the two `except` clauses catches. -/
def load_json_file (jsonLoads : String → Option Json) (file : FileContent) :
    Except PyFileError Json :=
  match file with
  | FileContent.missing => Except.ok (Json.obj [])
  | FileContent.bytes bs =>
    match utf8Decode bs with
    | none => Except.error PyFileError.unicodeDecodeError
    | some text =>
      match jsonLoads text with
      | none => Except.ok (Json.obj [])
      | some v => Except.ok v

/-! ## The ANSWER-state system prompt (src/main.py, `initialize_rag_chain`,
lines 458–478)

The `qa_system_prompt` assignment is reproduced below as the exact source
text of main.py lines 458–478.  The inner double quotes on lines 468–469 are
not escaped in the source, so line 468 tokenizes as a string literal, bare
identifiers, and an unterminated string literal: importing `main.py` fails
with `SyntaxError: unterminated string literal (detected at line 468)` and
no prompt object is ever constructed. -/

/-- Exact source text of main.py line 468 (including the trailing space). -/
def qaPromptLine468 : String :=
  "        \"4.  If the answer cannot be found in the provided context, you MUST explicitly state: \"Based on my knowledge\" "

/-- Exact source text of main.py lines 458–478 (the whole
`qa_system_prompt = ( … )` statement), with the apostrophe of line 465
written via `apos`. -/
def qaSystemPromptSource : String :=
  "    qa_system_prompt = (" ++ "\n" ++
  "        \"You are an administrative assistant for students of the Master in Business Analytics and Big Data (MiBA)\"" ++ "\n" ++
  "        \"program at SPbU GSOM.\"" ++ "\n" ++
  "        \"Your role is to answer questions strictly based on the provided context from university documents.\"" ++ "\n" ++
  "        \"Do not use any external knowledge or make assumptions beyond what is written in the context.\"" ++ "\n" ++
  "    " ++ "\n" ++
  "        \"Follow these instructions carefully:\"" ++ "\n" ++
  "        \"1.  Thoroughly read the user" ++ apos ++ "s question and the provided context.\"" ++ "\n" ++
  "        \"2.  Formulate a concise and direct answer using ONLY the information found in the context.\"" ++ "\n" ++
  "        \"3.  If the answer to the question is explicitly stated in the context, provide it.\"" ++ "\n" ++
  qaPromptLine468 ++ "\n" ++
  "        \"database, I could not find specific information about that. Please, push the \"Help\" button and contact the Office.\"\"" ++ "\n" ++
  "        \"5.  If multiple pieces of context are relevant, synthesize them into a coherent answer.\"" ++ "\n" ++
  "        \"6.  Maintain a helpful and professional tone.\\n\\n\"" ++ "\n" ++
  "        \"Context:\\n\"" ++ "\n" ++
  "        \"-----\\n\"" ++ "\n" ++
  "        \"{context}\\n\"" ++ "\n" ++
  "        \"-----\\n\"" ++ "\n" ++
  "        \"Question: {input}\\n\"" ++ "\n" ++
  "        \"Answer:\"" ++ "\n" ++
  "    )"

/-- The fallback sentence the specification requires the prompt to contain
verbatim. -/
def fallbackSentence : String :=
  "Based on my knowledge database, I could not find specific information about that. Please, push the Help button and contact the Office."

/-! ## Proof-support definitions -/

/-- The invariant maintained by the synonym-collection loop: no collected
synonym lowercases to a whitespace token of the primary query, and no two
collected synonyms share a lowercase form. -/
def SynInv (words acc : List String) : Prop :=
  (∀ s ∈ acc, words.contains (pyLower s) = false) ∧ (acc.map pyLower).Nodup

/-- Prefix test on character lists, used to decide whether a pattern occurs
in a source text. -/
def startsWithSeq : List Char → List Char → Bool
  | [], _ => true
  | _ :: _, [] => false
  | p :: ps, h :: hs => (p == h) && startsWithSeq ps hs

/-- Substring test on character lists. -/
def containsSeq (pat : List Char) : List Char → Bool
  | [] => startsWithSeq pat []
  | h :: hs => startsWithSeq pat (h :: hs) || containsSeq pat hs

/-- A vector store whose similarity search always raises, used to witness
the retriever's error handling at a concrete input. -/
def failStore : VectorStore Unit :=
  { is_hybrid_search := false
    similarity_search_with_score := fun _ _ _ _ => Except.error "ConnectionError"
    has_async_search := true }

/-- A sample interaction record, used to witness that malformed feedback
payloads leave a nonempty state untouched. -/
def sampleInteraction : InteractionRecord :=
  { question := "What is MiBA?"
    preprocessed_question :=
      "What is MiBA? Master in Business Analytics and Big Data Миба"
    answer := "A master program."
    contexts_docs :=
      [{ page_content := "MiBA is a master program.", metadata := [] }]
    answer_message_id := 7
    feedback := none
    timestamp := "2024-01-01T00:00:00" }

/-- A sample nonempty chat state for the feedback-callback witness. -/
def sampleState : BotChatState :=
  { interactions := [("11111111-2222-3333-4444-555555555555", sampleInteraction)]
    chat_history :=
      [ChatMessage.human "What is MiBA?", ChatMessage.ai "A master program."]
    ragas_pool :=
      [{ interaction_id := "11111111-2222-3333-4444-555555555555",
         feedback := none }] }

/-! ## General lemmas about the Python string model -/

theorem contains_eq_false_iff {α : Type} [BEq α] [LawfulBEq α]
    (l : List α) (a : α) : l.contains a = false ↔ a ∉ l := by
  rw [← Bool.not_eq_true]
  constructor
  · intro h hm
    exact h (List.elem_iff.mpr hm)
  · intro h hc
    exact h (List.elem_iff.mp hc)

theorem pyStrip_eq_empty_iff (s : String) :
    pyStrip s = "" ↔ ∀ c ∈ s.data, c.isWhitespace = true := by
  unfold pyStrip
  rw [String.ext_iff]
  show (((s.data.dropWhile Char.isWhitespace).reverse.dropWhile
      Char.isWhitespace).reverse) = [] ↔ _
  rw [List.reverse_eq_nil_iff, List.dropWhile_eq_nil_iff]
  constructor
  · intro h c hc
    have hsplit := List.takeWhile_append_dropWhile Char.isWhitespace s.data
    rw [← hsplit] at hc
    rcases List.mem_append.mp hc with h1 | h2
    · exact List.mem_takeWhile_imp h1
    · exact h c (List.mem_reverse.mpr h2)
  · intro h c hc
    exact h c (List.dropWhile_subset _ (List.mem_reverse.mp hc))

theorem pyStrip_ne_empty (s : String) (c : Char) (hc : c ∈ s.data)
    (hw : c.isWhitespace = false) : ¬ pyStrip s = "" := by
  intro h
  have := (pyStrip_eq_empty_iff s).mp h c hc
  simp_all

theorem char_toNat_ofNat (n : Nat) (h : n.isValidChar) :
    (Char.ofNat n).toNat = n := by
  rw [Char.ofNat, dif_pos h]
  rfl

/-! ## Lemmas about the composed query -/

theorem composedQuery_eq (uq t : String) :
    composedQuery uq t =
      if t = "" then expandQuery uq else expandQuery uq ++ ", " ++ t := by
  unfold composedQuery expandQuery
  by_cases hs : (appendedSynonyms uq).isEmpty <;> by_cases ht : t = "" <;>
    simp [hs, ht]

theorem mem_composed_of_mem (uq t : String) (c : Char) (hc : c ∈ uq.data) :
    c ∈ (composedQuery uq t).data := by
  rw [composedQuery_eq]
  unfold expandQuery
  by_cases hs : (appendedSynonyms uq).isEmpty <;> by_cases ht : t = "" <;>
    simp [hs, ht, String.data_append, List.mem_append] <;> tauto

/-! ## The synonym-collection invariant -/

theorem appendSyns_inv (words : List String) (syns : List String) :
    ∀ acc, SynInv words acc → SynInv words (appendSyns words acc syns) := by
  induction syns with
  | nil => intro acc h; exact h
  | cons syn rest ih =>
    intro acc h
    rw [appendSyns, List.foldl_cons]
    by_cases hc : synAddCond words acc syn = true
    · simp only [hc, if_true]
      apply ih
      obtain ⟨h1, h2⟩ := h
      unfold synAddCond at hc
      rw [Bool.and_eq_true, Bool.not_eq_true', Bool.not_eq_true'] at hc
      constructor
      · intro s hs
        rcases List.mem_append.mp hs with hm | hm
        · exact h1 s hm
        · rw [List.mem_singleton] at hm
          subst hm
          exact hc.1
      · rw [List.map_append, List.nodup_append]
        refine ⟨h2, List.nodup_singleton _, ?_⟩
        intro x hx hy
        rw [List.map_singleton, List.mem_singleton] at hy
        subst hy
        exact (contains_eq_false_iff _ _).mp hc.2 hx
    · simp only [hc, if_false]
      exact ih acc h

theorem processTokenAux_inv (words : List String) (cleaned : String)
    (entries : List (String × List String)) :
    ∀ acc, SynInv words acc →
      SynInv words (processTokenAux words cleaned entries acc) := by
  induction entries with
  | nil => intro acc h; exact h
  | cons kv rest ih =>
    intro acc h
    rw [processTokenAux, List.foldl_cons]
    by_cases hk : (pyLower kv.1 == cleaned) = true
    · simp only [hk, if_true]
      exact ih _ (appendSyns_inv words kv.2 acc h)
    · simp only [hk, if_false]
      exact ih acc h

theorem appendedSynonymsAux_inv (words : List String) (tokens : List String) :
    ∀ acc, SynInv words acc →
      SynInv words (appendedSynonymsAux words tokens acc) := by
  induction tokens with
  | nil => intro acc h; exact h
  | cons tok rest ih =>
    intro acc h
    rw [appendedSynonymsAux, List.foldl_cons]
    exact ih _ (processTokenAux_inv words (cleanToken tok) SYNONYM_MAP acc h)

theorem appendedSynonyms_inv (primary : String) :
    SynInv (wordsInPrimary primary) (appendedSynonyms primary) := by
  unfold appendedSynonyms
  refine appendedSynonymsAux_inv _ _ [] ⟨?_, List.nodup_nil⟩
  intro s hs
  cases hs

/-! ## Lemmas about language detection -/

theorem russian_letters_bounds :
    ∀ c ∈ RUSSIAN_LETTERS.data, 0x430 ≤ c.toNat ∧ c.toNat ≤ 0x451 := by
  decide

theorem pyLowerChar_not_russian (c : Char) (h : isCyrillicChar c = false) :
    RUSSIAN_LETTERS.data.contains (pyLowerChar c) = false := by
  rw [contains_eq_false_iff]
  intro hmem
  have hb := russian_letters_bounds _ hmem
  have hC : ¬ (0x400 ≤ c.toNat ∧ c.toNat ≤ 0x52F) := by
    intro hcontra
    simp [isCyrillicChar, hcontra.1, hcontra.2] at h
  unfold pyLowerChar at hb
  by_cases h1 : 0x41 ≤ c.toNat ∧ c.toNat ≤ 0x5A
  · rw [if_pos h1, char_toNat_ofNat _ (Or.inl (by omega))] at hb
    omega
  · rw [if_neg h1] at hb
    by_cases h2 : 0x400 ≤ c.toNat ∧ c.toNat ≤ 0x40F
    · exact hC ⟨h2.1, by omega⟩
    · rw [if_neg h2] at hb
      by_cases h3 : 0x410 ≤ c.toNat ∧ c.toNat ≤ 0x42F
      · exact hC ⟨by omega, by omega⟩
      · rw [if_neg h3] at hb
        exact hC ⟨by omega, by omega⟩

theorem is_russian_eq_any (q : String) :
    is_russian q =
      q.data.any (fun c => RUSSIAN_LETTERS.data.contains (pyLowerChar c)) := by
  unfold is_russian pyLower
  show (q.data.map pyLowerChar).any _ = _
  rw [List.any_map]
  rfl

/-! ## Soundness of the substring test -/

theorem startsWithSeq_of_prefix {pat : List Char} :
    ∀ {hay : List Char}, pat <+: hay → startsWithSeq pat hay = true := by
  induction pat with
  | nil => intro hay _; rfl
  | cons p ps ih =>
    intro hay h
    cases hay with
    | nil =>
      rw [List.prefix_nil] at h
      cases h
    | cons h0 hs =>
      rw [List.cons_prefix_cons] at h
      obtain ⟨he, hp⟩ := h
      subst he
      show ((p == p) && startsWithSeq ps hs) = true
      simp [ih hp]

theorem containsSeq_of_infix {pat : List Char} :
    ∀ {hay : List Char}, pat <:+: hay → containsSeq pat hay = true := by
  intro hay
  induction hay with
  | nil =>
    intro h
    rw [List.infix_nil] at h
    subst h
    rfl
  | cons a rest ih =>
    intro h
    rcases List.infix_cons_iff.mp h with hp | hi
    · rw [containsSeq, startsWithSeq_of_prefix hp]
      simp
    · rw [containsSeq, ih hi]
      simp

/-! ## Claim C1: synonym expansion idempotence -/

/-- Claim C1, amended.  The idempotence claim fails on the code (see the
counterexample), but the per-pass half holds: within a single expansion
pass, no two appended synonyms share a lowercase form (no duplicate synonym
insertion), and no appended synonym is already present as a whitespace token
of the query, compared case-insensitively. -/
theorem claim_C1_single_pass (q : String) :
    ((appendedSynonyms q).map pyLower).Nodup ∧
    ∀ s ∈ appendedSynonyms q,
      (wordsInPrimary q).contains (pyLower s) = false :=
  ⟨(appendedSynonyms_inv q).2, (appendedSynonyms_inv q).1⟩

/-- Claim C1 counterexample: the expansion step is not idempotent.  For the
query "practice internship" the first pass appends exactly the multi-word
synonym "practical training"; a second pass on the expanded output appends
"practical training" again, because the already-present check compares each
synonym against single whitespace tokens and a two-word synonym is never such
a token. -/
theorem claim_C1_counterexample :
    expandQuery "practice internship" =
      "practice internship practical training" ∧
    appendedSynonyms (expandQuery "practice internship") =
      ["practical training"] ∧
    expandQuery (expandQuery "practice internship") ≠
      expandQuery "practice internship" := by decide

/-- Claim C1 witness: the single-pass guarantees instantiated at the query
"course" and its appended synonym "program". -/
theorem claim_C1_witness :
    ((appendedSynonyms "course").map pyLower).Nodup ∧
    (wordsInPrimary "course").contains (pyLower "program") = false :=
  ⟨(claim_C1_single_pass "course").1,
   (claim_C1_single_pass "course").2 "program" (by decide)⟩

/-! ## Claim C2: retriever error handling -/

/-- Claim C2: whenever the underlying similarity search raises, both the
blocking and the non-blocking retriever entry points return the empty
document list (never re-raising, which the total result type reflects), and
the two entry points return identical results on every input. -/
theorem claim_C2_retriever_error_semantics (σ : Type) (vs : VectorStore σ)
    (k : Nat) (kwargs : SearchKwargs) (query : String) :
    agetRelevantDocuments vs k kwargs query =
      getRelevantDocuments vs k kwargs query ∧
    ∀ e, (forceHybrid vs).similarity_search_with_score
        (forceHybrid vs).is_hybrid_search query k kwargs = Except.error e →
      (getRelevantDocuments vs k kwargs query).1 = [] ∧
      (agetRelevantDocuments vs k kwargs query).1 = [] := by
  constructor
  · unfold agetRelevantDocuments getRelevantDocuments
    by_cases h : (forceHybrid vs).has_async_search <;> simp [h]
  · intro e he
    unfold agetRelevantDocuments getRelevantDocuments
    by_cases h : (forceHybrid vs).has_async_search <;> simp [h, he]

/-- Claim C2 witness: a store whose search always raises yields the empty
list from both entry points. -/
theorem claim_C2_witness :
    (getRelevantDocuments failStore 5 defaultSearchKwargs "What is MiBA?").1
      = [] ∧
    (agetRelevantDocuments failStore 5 defaultSearchKwargs "What is MiBA?").1
      = [] :=
  (claim_C2_retriever_error_semantics Unit failStore 5 defaultSearchKwargs
    "What is MiBA?").2 "ConnectionError" rfl

/-! ## Claim C3: chat-history bound -/

/-- Claim C3: after every history update of `handle_text_message` (lines
599–600), the retained chat history holds at most 20 messages (10
question/answer pairs), whatever the history held before and however many
turns have occurred. -/
theorem claim_C3_history_bound (history : List ChatMessage) (q a : String) :
    (updateChatHistory history q a).length ≤ 20 := by
  unfold updateChatHistory pyTakeLast
  rw [List.length_drop]
  omega

/-! ## Claim C4: shape of the final preprocessed query -/

/-- Claim C4, amended.  With a nonempty translation, the preprocessed query
is the whitespace-stripped concatenation of the synonym-expanded primary
query, a comma, and the translated text; with an empty translation it is the
stripped synonym-expanded primary query (which degenerates to the stripped
original when the expanded primary is whitespace-only).  The claim as stated
omits the final `strip` of line 542 (see the counterexample). -/
theorem claim_C4_final_query_shape (uq t : String) :
    (t ≠ "" → preprocess_query_for_retrieval uq t =
      pyStrip (expandQuery uq ++ ", " ++ t)) ∧
    preprocess_query_for_retrieval uq "" =
      (if pyStrip (expandQuery uq) = "" then pyStrip uq
       else pyStrip (expandQuery uq)) := by
  constructor
  · intro ht
    unfold preprocess_query_for_retrieval
    rw [composedQuery_eq, if_neg ht]
    have hcomma : (',') ∈ (expandQuery uq ++ ", " ++ t).data := by
      rw [String.data_append, String.data_append]
      refine List.mem_append.mpr (Or.inl (List.mem_append.mpr (Or.inr ?_)))
      decide
    have hne := pyStrip_ne_empty _ ',' hcomma (by decide)
    simp [hne]
  · unfold preprocess_query_for_retrieval
    rw [composedQuery_eq, if_pos rfl]
    by_cases h : pyStrip (expandQuery uq) = "" <;> simp [h]

/-- Claim C4 counterexample: for the query " hi " with an empty translation
(and no matching synonyms) the function returns "hi", not the untranslated
primary query " hi ": the claim misses the final whitespace strip. -/
theorem claim_C4_counterexample :
    appendedSynonyms " hi " = [] ∧
    preprocess_query_for_retrieval " hi " "" = "hi" ∧
    preprocess_query_for_retrieval " hi " "" ≠ " hi " := by decide

/-- Claim C4 witness: the nonempty-translation branch instantiated at
query "deadline" with translation "срок". -/
theorem claim_C4_witness :
    preprocess_query_for_retrieval "deadline" "срок" =
      pyStrip (expandQuery "deadline" ++ ", " ++ "срок") :=
  (claim_C4_final_query_shape "deadline" "срок").1 (by decide)

/-! ## Claim C5: the ANSWER-state system prompt -/

set_option maxRecDepth 100000 in
/-- Claim C5, code evaluation.  The `qa_system_prompt` source line 468
contains an odd number (three) of double-quote characters and no backslash,
so Python tokenization of main.py fails with an unterminated string literal:
the prompt is never constructed.  Moreover the claimed fallback sentence does
not occur in the prompt's source text at all: the source splits it as
`knowledge" "database` (the fragments would concatenate without the space)
and puts quotes around `Help`. -/
theorem claim_C5_prompt_bug :
    (qaPromptLine468.data.filter (fun c => c = '"')).length = 3 ∧
    ¬ (fallbackSentence.data <:+: qaSystemPromptSource.data) := by
  constructor
  · decide
  · intro h
    have ht := containsSeq_of_infix h
    have hf : containsSeq fallbackSentence.data qaSystemPromptSource.data
        = false := by decide
    rw [hf] at ht
    cases ht

/-! ## Claim C7: language detection -/

/-- Claim C7, amended.  A query with no Cyrillic character is classified
non-Russian (first half of the claim, confirmed); but a query is classified
Russian exactly when its lowercased form contains one of the 33 letters of
the Russian alphabet, so Cyrillic letters outside that alphabet do not
trigger the Russian classification (see the counterexample). -/
theorem claim_C7_language_detection (q : String) :
    (q.data.all (fun c => !(isCyrillicChar c)) = true → is_russian q = false) ∧
    (is_russian q = true ↔
      ∃ c ∈ q.data, RUSSIAN_LETTERS.data.contains (pyLowerChar c) = true) := by
  constructor
  · intro hall
    rw [is_russian_eq_any, List.any_eq_false]
    intro c hc
    rw [Bool.not_eq_true]
    apply pyLowerChar_not_russian
    have := List.all_eq_true.mp hall c hc
    rwa [Bool.not_eq_true'] at this
  · rw [is_russian_eq_any]
    exact List.any_eq_true

/-- Claim C7 counterexample: the Ukrainian letter і (U+0456) is Cyrillic,
yet the query "і" is classified non-Russian, because the probe string holds
only the 33 Russian-alphabet letters. -/
theorem claim_C7_counterexample :
    isCyrillicChar 'і' = true ∧ is_russian "і" = false := by decide

/-- Claim C7 witness: the no-Cyrillic half instantiated at "hello". -/
theorem claim_C7_witness : is_russian "hello" = false :=
  (claim_C7_language_detection "hello").1 (by decide)

/-! ## Claim C8: whitespace-only fallback -/

/-- Claim C8, amended.  When the composed query strips to empty, the
function returns the whitespace-stripped original user text — not the
untouched text — and the composed query can only strip to empty when the
user text itself is whitespace-only. -/
theorem claim_C8_whitespace_fallback (uq t : String)
    (h : pyStrip (composedQuery uq t) = "") :
    preprocess_query_for_retrieval uq t = pyStrip uq ∧ pyStrip uq = "" := by
  constructor
  · unfold preprocess_query_for_retrieval
    simp [h]
  · rw [pyStrip_eq_empty_iff]
    intro c hc
    exact (pyStrip_eq_empty_iff _).mp h c (mem_composed_of_mem uq t c hc)

/-- Claim C8 counterexample: for the whitespace-only input " " (with an
empty translation), the composed query strips to empty and the function
returns "", not the original untouched text " ". -/
theorem claim_C8_counterexample :
    pyStrip (composedQuery " " "") = "" ∧
    preprocess_query_for_retrieval " " "" ≠ " " := by decide

/-- Claim C8 witness: the amended fallback behaviour at the input " ". -/
theorem claim_C8_witness :
    preprocess_query_for_retrieval " " "" = pyStrip " " ∧ pyStrip " " = "" :=
  claim_C8_whitespace_fallback " " "" (by decide)

/-! ## Claim C9: malformed feedback payloads -/

/-- Claim C9: a feedback callback payload that does not split into exactly
three underscore-separated parts makes the handler reply with the fixed
error message and leave the interaction table, the chat history and the
RAGAS pool untouched — no feedback value is recorded and no exception
escapes (the total result type reflects the caught `ValueError`). -/
theorem claim_C9_feedback_malformed (data : String) (st : BotChatState)
    (h : (pySplitOn '_' data).length ≠ 3) :
    feedback_callback data st = ("Error: Could not process feedback.", st) := by
  unfold feedback_callback
  rcases hl : pySplitOn '_' data with _ | ⟨a, _ | ⟨b, _ | ⟨c, _ | d⟩⟩⟩ <;>
    simp_all

/-- Claim C9 witness: the payload "feedback_positive" (missing the
interaction id) splits into two parts and leaves a nonempty state
unchanged. -/
theorem claim_C9_witness :
    feedback_callback "feedback_positive" sampleState =
      ("Error: Could not process feedback.", sampleState) :=
  claim_C9_feedback_malformed "feedback_positive" sampleState (by decide)

/-! ## Claim C10: load_json_file error behaviour -/

/-- Claim C10, amended.  `load_json_file` returns `{}` for a missing file
and, for any file whose bytes decode as UTF-8, never raises: it returns the
parsed JSON value when the text parses and `{}` when it does not.  The
"never raises for every filename" half of the claim fails on non-UTF-8 bytes
(see the counterexample). -/
theorem claim_C10_load_json_behaviour (jsonLoads : String → Option Json)
    (bs : List Nat) (text : String) :
    load_json_file jsonLoads FileContent.missing = Except.ok (Json.obj []) ∧
    (utf8Decode bs = some text →
      load_json_file jsonLoads (FileContent.bytes bs) =
        Except.ok (match jsonLoads text with
          | some v => v
          | none => Json.obj [])) := by
  constructor
  · rfl
  · intro h
    show (match utf8Decode bs with
      | none => Except.error PyFileError.unicodeDecodeError
      | some text =>
        match jsonLoads text with
        | none => Except.ok (Json.obj [])
        | some v => Except.ok v) = _
    rw [h]
    show (match jsonLoads text with
      | none => Except.ok (Json.obj [])
      | some v => Except.ok v) = _
    cases jsonLoads text <;> rfl

/-- Claim C10 counterexample: a file holding the single byte 0xFF is not
valid UTF-8, so `f.read()` raises `UnicodeDecodeError`, which neither
`except` clause catches: `load_json_file` raises to its caller. -/
theorem claim_C10_counterexample :
    load_json_file (fun _ => some Json.null) (FileContent.bytes [0xFF]) =
      Except.error PyFileError.unicodeDecodeError := rfl

/-- Claim C10 witness: the missing-file case and a two-byte UTF-8 file on
which the JSON parser fails both yield `{}`. -/
theorem claim_C10_witness :
    load_json_file (fun _ => none) FileContent.missing =
      Except.ok (Json.obj []) ∧
    load_json_file (fun _ => none) (FileContent.bytes [0x7B, 0x7D]) =
      Except.ok (Json.obj []) :=
  ⟨(claim_C10_load_json_behaviour (fun _ => none) [0x7B, 0x7D] "\x7b\x7d").1,
   (claim_C10_load_json_behaviour (fun _ => none) [0x7B, 0x7D] "\x7b\x7d").2 rfl⟩

end RagAssistant
